import Mathlib

/-!
Shallow embedding of `pubmetric.py` (with constants from `config.py`).

Python strings are modelled as lists of Unicode codepoints (`PyStr`).
Fallible Python code (operations that can raise) is modelled with `Option`:
`none` marks the branch where the Python original raises an exception.
Unicode NFD decomposition and Unicode lowercasing are modelled by concrete
tables covering the accented characters exercised by the repository's
doctests; ASCII characters are NFD-invariant, exactly as in real Unicode.
-/

namespace Pubmetric

/-- A Python string: the list of its Unicode codepoints. -/
abbrev PyStr := List Nat

/-- Convenience: build a `PyStr` from a Lean string literal. -/
def strCodes (s : String) : PyStr := s.data.map Char.toNat

/-- `config.py`: `TOO_MANY_PAPERS = 50`. -/
def TOO_MANY_PAPERS : Nat := 50

/-- `config.py`: `WITH_INITIAL = True`. -/
def WITH_INITIAL : Bool := true

/-- ASCII whitespace recognized by Python `str.strip()`. -/
def isPySpace (n : Nat) : Bool :=
  n = 32 || n = 9 || n = 10 || n = 13 || n = 11 || n = 12

/-- Python `str.strip()`: drop leading and trailing whitespace. -/
def pyStrip (s : PyStr) : PyStr :=
  ((s.dropWhile isPySpace).reverse.dropWhile isPySpace).reverse

/-- Python `str.lower()` on one codepoint: ASCII case mapping plus the
uppercase accented letters used in the repository's doctests. -/
def pyLowerChar (n : Nat) : Nat :=
  if 65 ≤ n ∧ n ≤ 90 then n + 32
  else if n = 192 then 224      -- À → à
  else if n = 201 then 233      -- É → é
  else if n = 220 then 252      -- Ü → ü
  else if n = 199 then 231      -- Ç → ç
  else n

/-- Unicode NFD decomposition of one codepoint, restricted to the accented
characters appearing in the repository's doctests.  ASCII codepoints are
NFD-invariant (true of real Unicode). -/
def nfdChar (n : Nat) : List Nat :=
  if n < 128 then [n]
  else if n = 224 then [97, 768]    -- à → a + combining grave
  else if n = 233 then [101, 769]   -- é → e + combining acute
  else if n = 232 then [101, 768]   -- è → e + combining grave
  else if n = 252 then [117, 776]   -- ü → u + combining diaeresis
  else if n = 231 then [99, 807]    -- ç → c + combining cedilla
  else [n]

/-- `strip_accents(text)`: NFD-decompose, then `encode('ascii', 'ignore')`,
i.e. drop every non-ASCII codepoint (the combining marks in particular). -/
def strip_accents (s : PyStr) : PyStr :=
  ((s.map nfdChar).flatten).filter (fun n => n < 128)

/-- The character class of the regex `[0-9a-zA-Z]`. -/
def isAlnumAscii (n : Nat) : Bool :=
  (48 ≤ n && n ≤ 57) || (65 ≤ n && n ≤ 90) || (97 ≤ n && n ≤ 122)

/-- `flatten_name(name)`: `strip_accents(name.strip().lower())` followed by
`re.sub('[^0-9a-zA-Z]', '', name)`. -/
def flatten_name (name : PyStr) : PyStr :=
  (strip_accents ((pyStrip name).map pyLowerChar)).filter isAlnumAscii

/-- `names_match(name1, name2)`. -/
def names_match (name1 name2 : PyStr) : Bool :=
  flatten_name name1 == flatten_name name2

/-- `format_name(last, first, with_initial)`.  `none` models the
`IndexError` raised by `first.strip()[0]` when `first` strips to empty. -/
def format_name (last first : PyStr) (with_initial : Bool) : Option PyStr :=
  if with_initial then
    match pyStrip first with
    | [] => none
    | c :: _ => some (pyStrip last ++ [32, c])
  else
    some (pyStrip last)

/-! ### Paper summaries (ESUMMARY records) -/

/-- One paper-summary record (the parsed JSON for one PMID), restricted to
the fields the program reads: the ordered author display names
(`data['authors'][i]['name']`), the publication-type tags
(`data['pubtype']`) and the journal title (`data['source']`). -/
structure SummaryData where
  authors : List PyStr
  pubtype : List PyStr
  source : PyStr
deriving DecidableEq

/-- `PaperSummary.is_review`: `'Review' in self.data['pubtype']`. -/
def summary_is_review (s : SummaryData) : Bool :=
  decide (strCodes ("Review") ∈ s.pubtype)

/-- `PaperSummary.is_first_author(author)`: compare the first listed
author's display name, truncated to `len(author)` codepoints, with the
trainee's flattened name.  `none` models the `IndexError` raised by
`self.data['authors'][0]` on an empty author list. -/
def summary_is_first_author (author : PyStr) (s : SummaryData) : Option Bool :=
  match s.authors with
  | [] => none
  | first_listed :: _ =>
      some (flatten_name (first_listed.take author.length) == flatten_name author)

/-- `PaperSummary.journal_title`: `self.data['source']`. -/
def journal_title (s : SummaryData) : PyStr := s.source

/-! ### Full bibliographic records (EFETCH XML abstracts) -/

/-- One author dict built by `extract_authorship` from an XML `<Author>`
element: the element's attributes (`ValidYN`, `EqualContrib`) merged with
the stripped text of each child tag.  A field is `some` exactly when the
corresponding key is present in the Python dict. -/
structure AuthorEntry where
  validYN : Option PyStr := none
  equalContribAttr : Option PyStr := none
  lastName : Option PyStr := none
  foreName : Option PyStr := none
  initialsField : Option PyStr := none
  affiliationInfo : Option PyStr := none
deriving DecidableEq

/-- `PaperAbstract.extract_authorship`: keep only author dicts that contain
a `LastName` key. -/
def extract_authorship (entries : List AuthorEntry) : List AuthorEntry :=
  entries.filter (fun a => a.lastName.isSome)

/-- Helper for the Python substring test: does `hay` start with `needle`? -/
def startsWithSeq : List Nat → List Nat → Bool
  | [], _ => true
  | _ :: _, [] => false
  | a :: as, b :: bs => (a == b) && startsWithSeq as bs

/-- Python substring test `needle in hay` on codepoint lists. -/
def substrIn (needle : PyStr) : PyStr → Bool
  | [] => needle.isEmpty
  | b :: bs => startsWithSeq needle (b :: bs) || substrIn needle bs

/-- The `matching_authors` list of `PaperAbstract.is_first_author`:
qualified authors whose flattened last name is a substring of the
flattened trainee name. -/
def matching_authors (author : PyStr) (entries : List AuthorEntry) :
    List AuthorEntry :=
  (extract_authorship entries).filter
    (fun a => substrIn (flatten_name (a.lastName.getD [])) (flatten_name author))

/-- `PaperAbstract.is_first_author(author)`: if the number of matching
authors is not 1, print a diagnostic and return `False`; otherwise the
unique match is a first author iff it equals the head of the author list
or its dict has an `EqualContrib` key. -/
def fullrecord_is_first_author (author : PyStr) (entries : List AuthorEntry) :
    Bool :=
  match matching_authors author entries with
  | [m] =>
      let is_listed_first := (extract_authorship entries).head? == some m
      let is_co_first := m.equalContribAttr.isSome
      is_listed_first || is_co_first
  | _ => false

/-! ### Roster rows and `_parse_trainee_mentor` -/

/-- A raw roster cell: either a string value or a missing/NaN value (on
which string methods raise `AttributeError` and `pd.isna` is true). -/
inductive CellValue
  | str : PyStr → CellValue
  | na : CellValue
deriving DecidableEq

/-- One roster row, restricted to the columns the program reads. -/
structure RosterRow where
  lastNameCol : PyStr
  firstNameCol : PyStr
  thesisMentor : CellValue
  location : CellValue

/-- Python `str.split(sep)` for a one-character separator. -/
def pySplit (sep : Nat) (s : PyStr) : List PyStr := s.splitOn sep

/-- The mentor branch of `_parse_trainee_mentor`: split on a comma, then
`format_name(parts[0], parts[1])` when there are at least two parts, else
the single part; the surrounding `try`/`except` turns any exception
(non-string cell, empty first name after the comma) into `None`. -/
def parse_mentor (v : CellValue) (with_initial : Bool) : Option PyStr :=
  match v with
  | CellValue.na => none
  | CellValue.str s =>
      match pySplit 44 s with
      | p0 :: p1 :: _ => format_name p0 p1 with_initial
      | parts => parts.head?

/-- The location branch of `_parse_trainee_mentor`: `None` exactly when
`pd.isna(row.Location)` holds. -/
def parse_location (v : CellValue) : Option PyStr :=
  match v with
  | CellValue.na => none
  | CellValue.str s => some s

/-- `AuthorSearch._parse_trainee_mentor`: format the trainee name (a
failure here propagates, hence `none`), then attach the mentor and the
location, whose parsing failures degrade to `None` fields instead of
propagating. -/
def parse_trainee_mentor (row : RosterRow) (with_initial : Bool) :
    Option (PyStr × Option PyStr × Option PyStr) :=
  match format_name row.lastNameCol row.firstNameCol with_initial with
  | none => none
  | some trainee =>
      some (trainee, parse_mentor row.thesisMentor with_initial,
        parse_location row.location)

/-! ### Trainee statistics and `assess_trainee` -/

/-- A PubMed identifier, as the string the JSON responses carry. -/
abbrev Pmid := PyStr

/-- The per-trainee statistics dict.  The five counter fields mirror
`EMPTY_TRAINEE_STATS`; the `Option` fields model the keys that
`assess_trainee` adds to the dict later. -/
structure TraineeStats where
  research_papers : Nat
  first_author_research_papers : Nat
  first_author_journals : List PyStr
  reviews : Nat
  first_author_reviews : Nat
  paper_count : Option Nat := none
  pmids : Option (List Pmid) := none
  error : Option PyStr := none
deriving DecidableEq

/-- `EMPTY_TRAINEE_STATS` from the top of `pubmetric.py`. -/
def EMPTY_TRAINEE_STATS : TraineeStats :=
  { research_papers := 0, first_author_research_papers := 0,
    first_author_journals := [], reviews := 0, first_author_reviews := 0 }

/-- The external service's responses for one trainee's search: the ESEARCH
result (`count` and `idlist`), and the parsed bodies the two fetch
endpoints would return for the cached cursor — the `uids` list of the
ESUMMARY response and the per-PMID summary and abstract stores. -/
structure ServiceData where
  count : Nat
  idlist : List Pmid
  uids : List Pmid
  summaries : List (Pmid × SummaryData)
  abstracts : List (Pmid × List AuthorEntry)

/-- A fetch call issued against the external service. -/
inductive FetchEvent
  | fetchSummariesCall
  | fetchAbstractsCall
deriving DecidableEq

/-- The scoring loop of `assess_trainee`, over the uids returned by the
summary fetch.  Dictionary lookups and the summary matcher run in
`Option`: `none` marks a `KeyError` or `IndexError` in the Python
original. -/
def score_papers (trainee : PyStr) (svc : ServiceData) :
    List Pmid → TraineeStats → List SummaryData →
    Option (TraineeStats × List SummaryData)
  | [], stats, content => some (stats, content)
  | pmid :: rest, stats, content => do
      let this_summary ← svc.summaries.lookup pmid
      let this_abstract ← svc.abstracts.lookup pmid
      let sfa ← summary_is_first_author trainee this_summary
      let first_author := sfa || fullrecord_is_first_author trainee this_abstract
      let stats :=
        if summary_is_review this_summary then
          { stats with
            reviews := stats.reviews + 1,
            first_author_reviews :=
              if first_author then stats.first_author_reviews + 1
              else stats.first_author_reviews }
        else
          { stats with
            research_papers := stats.research_papers + 1,
            first_author_research_papers :=
              if first_author then stats.first_author_research_papers + 1
              else stats.first_author_research_papers,
            first_author_journals :=
              if first_author then
                stats.first_author_journals ++ [journal_title this_summary]
              else stats.first_author_journals }
      score_papers trainee svc rest stats (content ++ [this_summary])

/-- `AuthorSearch.assess_trainee`, given the service responses for this
trainee's search.  Returns the outcome (`none` for a propagated
exception) paired with the trace of fetch calls issued; the outcome holds
the stats dict and the accumulated `paper_content` list. -/
def assess_trainee (trainee : PyStr) (svc : ServiceData) :
    Option (TraineeStats × List SummaryData) × List FetchEvent :=
  let stats0 := { EMPTY_TRAINEE_STATS with
    paper_count := some svc.count, pmids := some svc.idlist }
  if svc.count = 0 then
    (some ({ stats0 with
        error := some (strCodes ("Search returned zero results")) }, []),
      [])
  else if TOO_MANY_PAPERS < svc.count then
    (some ({ stats0 with
        error := some (strCodes ("Search returned too many results")) }, []),
      [])
  else
    (score_papers trainee svc svc.uids stats0 [],
      [FetchEvent.fetchSummariesCall, FetchEvent.fetchAbstractsCall])

/-! ### Helper lemmas about the normalization pipeline -/

theorem dropWhile_eq_self_of (p : Nat → Bool) (l : List Nat)
    (h : ∀ c ∈ l, p c = false) : l.dropWhile p = l := by
  cases l with
  | nil => rfl
  | cons a as => simp [List.dropWhile_cons, h a (List.mem_cons_self a as)]

theorem map_eq_self_of (f : Nat → Nat) (l : List Nat)
    (h : ∀ c ∈ l, f c = c) : l.map f = l := by
  induction l with
  | nil => rfl
  | cons a as ih =>
      simp only [List.map_cons, h a (List.mem_cons_self a as), List.cons.injEq,
        true_and]
      exact ih (fun c hc => h c (List.mem_cons_of_mem a hc))

theorem join_map_singleton_of (f : Nat → List Nat) (l : List Nat)
    (h : ∀ c ∈ l, f c = [c]) : (l.map f).flatten = l := by
  induction l with
  | nil => rfl
  | cons a as ih =>
      simp only [List.map_cons, List.flatten_cons, h a (List.mem_cons_self a as)]
      rw [ih (fun c hc => h c (List.mem_cons_of_mem a hc))]
      rfl

theorem filter_eq_self_of (p : Nat → Bool) (l : List Nat)
    (h : ∀ c ∈ l, p c = true) : l.filter p = l :=
  List.filter_eq_self.mpr h

/-- Characters produced by NFD-decomposing a lowercased codepoint are never
uppercase ASCII letters once the non-ASCII ones are filtered away. -/
theorem notUpper_of_mem_nfd_lower (e c : Nat)
    (h : c ∈ nfdChar (pyLowerChar e)) (hc : c < 128) :
    ¬(65 ≤ c ∧ c ≤ 90) := by
  unfold pyLowerChar at h
  split_ifs at h with h1 h2 h3 h4 h5
  · -- ASCII uppercase letter, lowered to e + 32
    unfold nfdChar at h
    rw [if_pos (by omega : e + 32 < 128)] at h
    simp only [List.mem_singleton] at h
    omega
  · have he : nfdChar 224 = [97, 768] := by decide
    rw [he] at h
    simp only [List.mem_cons, List.not_mem_nil, or_false] at h
    rcases h with h | h <;> omega
  · have he : nfdChar 233 = [101, 769] := by decide
    rw [he] at h
    simp only [List.mem_cons, List.not_mem_nil, or_false] at h
    rcases h with h | h <;> omega
  · have he : nfdChar 252 = [117, 776] := by decide
    rw [he] at h
    simp only [List.mem_cons, List.not_mem_nil, or_false] at h
    rcases h with h | h <;> omega
  · have he : nfdChar 231 = [99, 807] := by decide
    rw [he] at h
    simp only [List.mem_cons, List.not_mem_nil, or_false] at h
    rcases h with h | h <;> omega
  · -- default branch: pyLowerChar e = e
    unfold nfdChar at h
    split_ifs at h with g1 g2 g3 g4 g5 g6 <;>
      simp only [List.mem_cons, List.not_mem_nil, or_false] at h <;>
      (try rcases h with h | h) <;> omega

/-- Every character of a flattened name is ASCII-alphanumeric and not an
uppercase letter. -/
theorem mem_flatten_name (s : PyStr) (c : Nat) (hc : c ∈ flatten_name s) :
    isAlnumAscii c = true ∧ ¬(65 ≤ c ∧ c ≤ 90) := by
  unfold flatten_name at hc
  have h1 := List.mem_filter.mp hc
  refine ⟨h1.2, ?_⟩
  unfold strip_accents at h1
  have h2 := List.mem_filter.mp h1.1
  obtain ⟨l, hl, hcl⟩ := List.mem_flatten.mp h2.1
  obtain ⟨d, hd, rfl⟩ := List.mem_map.mp hl
  obtain ⟨e, _, rfl⟩ := List.mem_map.mp hd
  have hc128 : c < 128 := by simpa using h2.2
  exact notUpper_of_mem_nfd_lower e c hcl hc128

/-- `flatten_name` is the identity on strings made of lowercase ASCII
alphanumerics. -/
theorem flatten_name_fixed (s : PyStr)
    (h : ∀ c ∈ s, isAlnumAscii c = true ∧ ¬(65 ≤ c ∧ c ≤ 90)) :
    flatten_name s = s := by
  have harith : ∀ c ∈ s, (48 ≤ c ∧ c ≤ 57) ∨ (97 ≤ c ∧ c ≤ 122) := by
    intro c hc
    have h1 := (h c hc).1
    have h2 := (h c hc).2
    simp only [isAlnumAscii, Bool.or_eq_true, Bool.and_eq_true,
      decide_eq_true_eq] at h1
    omega
  have hspace : ∀ c ∈ s, isPySpace c = false := by
    intro c hc
    have := harith c hc
    simp only [isPySpace, Bool.or_eq_false_iff, decide_eq_false_iff_not]
    omega
  have hstrip : pyStrip s = s := by
    unfold pyStrip
    rw [dropWhile_eq_self_of _ _ hspace,
      dropWhile_eq_self_of _ _ (fun c hc => hspace c (List.mem_reverse.mp hc)),
      List.reverse_reverse]
  have hlower : (s.map pyLowerChar) = s := by
    apply map_eq_self_of
    intro c hc
    have := harith c hc
    unfold pyLowerChar
    split_ifs <;> omega
  have hnfd : ∀ c ∈ s, nfdChar c = [c] := by
    intro c hc
    have := harith c hc
    unfold nfdChar
    rw [if_pos (by omega)]
  have hsa : strip_accents s = s := by
    unfold strip_accents
    rw [join_map_singleton_of _ _ hnfd]
    apply filter_eq_self_of
    intro c hc
    have := harith c hc
    simpa using by omega
  unfold flatten_name
  rw [hstrip, hlower, hsa]
  apply filter_eq_self_of
  intro c hc
  exact (h c hc).1

/-! ### Claim theorems: matchers and classifier -/

/-- C9: `canonicalize` (`flatten_name`) is idempotent:
`flatten_name (flatten_name x) = flatten_name x` for every text input. -/
theorem flatten_name_idempotent (x : PyStr) :
    flatten_name (flatten_name x) = flatten_name x :=
  flatten_name_fixed (flatten_name x) (mem_flatten_name x)

/-- C1: when the number of substring-matching qualified author entries is
not exactly one (zero or several), `fullrecord_is_first_author` returns
`false` — it is total, so no exception escapes; the count is only printed
as a diagnostic. -/
theorem fullrecord_ambiguous_returns_false (author : PyStr)
    (entries : List AuthorEntry)
    (h : (matching_authors author entries).length ≠ 1) :
    fullrecord_is_first_author author entries = false := by
  unfold fullrecord_is_first_author
  cases hm : matching_authors author entries with
  | nil => rfl
  | cons m t =>
      cases t with
      | nil => rw [hm] at h; simp at h
      | cons b t2 => rfl

/-- Witness for C1: a trainee name matching none of the record's authors
yields a zero-sized match set and a `false` classification. -/
theorem fullrecord_ambiguous_returns_false_witness :
    (matching_authors (strCodes ("Joyce J"))
        [{ lastName := some (strCodes ("Smith")) }]).length ≠ 1 ∧
    fullrecord_is_first_author (strCodes ("Joyce J"))
        [{ lastName := some (strCodes ("Smith")) }] = false :=
  ⟨by decide,
   fullrecord_ambiguous_returns_false _ _ (by decide)⟩

/-- C2: with exactly one substring-matching qualified author entry `m`,
`fullrecord_is_first_author` returns `true` iff `m` is the first entry of
the built author list or its record carries an `EqualContrib` marker. -/
theorem fullrecord_unique_match_iff (author : PyStr)
    (entries : List AuthorEntry) (m : AuthorEntry)
    (h : matching_authors author entries = [m]) :
    (fullrecord_is_first_author author entries = true ↔
      ((extract_authorship entries).head? = some m ∨
        m.equalContribAttr.isSome = true)) := by
  unfold fullrecord_is_first_author
  rw [h]
  simp

/-- Witness for C2: the doc-comment example record (Huxlin, Cavanaugh) with
trainee "Huxlin K": the unique match is the first listed author. -/
theorem fullrecord_unique_match_iff_witness :
    (fullrecord_is_first_author (strCodes ("Huxlin K"))
        [{ validYN := some (strCodes ("Y")),
           lastName := some (strCodes ("Huxlin")),
           foreName := some (strCodes ("Krystel R")) },
         { validYN := some (strCodes ("Y")),
           lastName := some (strCodes ("Cavanaugh")),
           foreName := some (strCodes ("Matthew R")) }] = true ↔
      ((extract_authorship
          [{ validYN := some (strCodes ("Y")),
             lastName := some (strCodes ("Huxlin")),
             foreName := some (strCodes ("Krystel R")) },
           { validYN := some (strCodes ("Y")),
             lastName := some (strCodes ("Cavanaugh")),
             foreName := some (strCodes ("Matthew R")) }]).head? =
        some { validYN := some (strCodes ("Y")),
               lastName := some (strCodes ("Huxlin")),
               foreName := some (strCodes ("Krystel R")) } ∨
        Option.isSome
          (AuthorEntry.equalContribAttr
            { validYN := some (strCodes ("Y")),
              lastName := some (strCodes ("Huxlin")),
              foreName := some (strCodes ("Krystel R")) }) = true)) :=
  fullrecord_unique_match_iff _ _ _ (by decide)

/-- C3: on a summary with a non-empty author list, first-authorship holds
iff the first listed author's display name, truncated to the character
length of the raw trainee name, flattens to the trainee's flattened name. -/
theorem summary_first_author_spec (author : PyStr) (s : SummaryData)
    (a0 : PyStr) (rest : List PyStr) (h : s.authors = a0 :: rest) :
    (summary_is_first_author author s = some true ↔
      flatten_name (a0.take author.length) = flatten_name author) := by
  unfold summary_is_first_author
  rw [h]
  simp

/-- Witness for C3: summary author "Joyce James", trainee "Joyce J": the
truncation keeps "Joyce J" and the flattened names agree. -/
theorem summary_first_author_spec_witness :
    (summary_is_first_author (strCodes ("Joyce J"))
        { authors := [strCodes ("Joyce James")], pubtype := [], source := [] } =
        some true ↔
      flatten_name ((strCodes ("Joyce James")).take
          (strCodes ("Joyce J")).length) =
        flatten_name (strCodes ("Joyce J"))) :=
  summary_first_author_spec _ _ _ [] rfl

/-- C6: `is_review` is true iff the literal tag "Review" occurs among the
summary's publication-type tags; in particular a tag list holding only
"Journal Article" classifies as research. -/
theorem is_review_iff_review_tag (s : SummaryData) :
    (summary_is_review s = true ↔ strCodes ("Review") ∈ s.pubtype) ∧
    (s.pubtype = [strCodes ("Journal Article")] →
      summary_is_review s = false) := by
  constructor
  · unfold summary_is_review
    simp
  · intro h
    unfold summary_is_review
    rw [h]
    decide

/-- Witness for C6: a summary tagged only "Journal Article" is not a
review. -/
theorem is_review_iff_review_tag_witness :
    summary_is_review
      { authors := [], pubtype := [strCodes ("Journal Article")],
        source := [] } = false :=
  (is_review_iff_review_tag _).2 rfl

/-- C10: `summary_is_first_author` fails (the Python code raises
`IndexError` on `authors[0]`) exactly when the summary's author list is
empty — non-emptiness is the precondition under which the failure branch
is unreachable, and on empty input the result is an error, never `false`. -/
theorem summary_empty_authors_raises (author : PyStr) (s : SummaryData) :
    summary_is_first_author author s = none ↔ s.authors = [] := by
  rcases s with ⟨authors, pubtype, source⟩
  cases authors <;> simp [summary_is_first_author]

/-! ### Claim theorems: orchestration and roster parsing -/

/-- C4: a zero-count search terminates `assess_trainee` immediately: the
stats record paper_count 0 and the zero-results error tag, no fetch call
is issued, and no entry is contributed to the paper-content export. -/
theorem assess_zero_results (trainee : PyStr) (svc : ServiceData)
    (h : svc.count = 0) :
    assess_trainee trainee svc =
      (some ({ EMPTY_TRAINEE_STATS with
          paper_count := some 0, pmids := some svc.idlist,
          error := some (strCodes ("Search returned zero results")) }, []),
        []) := by
  unfold assess_trainee
  rw [h]
  simp

/-- Witness for C4 at a concrete empty search result. -/
theorem assess_zero_results_witness :
    (ServiceData.count
        { count := 0, idlist := [], uids := [], summaries := [],
          abstracts := [] } = 0) ∧
    assess_trainee (strCodes ("Joyce J"))
        { count := 0, idlist := [], uids := [], summaries := [],
          abstracts := [] } =
      (some ({ EMPTY_TRAINEE_STATS with
          paper_count := some 0, pmids := some [],
          error := some (strCodes ("Search returned zero results")) }, []),
        []) :=
  ⟨rfl, assess_zero_results _ _ rfl⟩

/-- C5: a search whose count exceeds `TOO_MANY_PAPERS` terminates
`assess_trainee` with the count and the too-many-results error tag in the
stats, and no fetch call is issued. -/
theorem assess_too_many_results (trainee : PyStr) (svc : ServiceData)
    (h : TOO_MANY_PAPERS < svc.count) :
    assess_trainee trainee svc =
      (some ({ EMPTY_TRAINEE_STATS with
          paper_count := some svc.count, pmids := some svc.idlist,
          error := some (strCodes ("Search returned too many results")) }, []),
        []) := by
  have h50 : 50 < svc.count := h
  unfold assess_trainee
  rw [if_neg (by omega), if_pos h]

/-- Witness for C5 at a concrete over-threshold search result. -/
theorem assess_too_many_results_witness :
    (TOO_MANY_PAPERS <
      ServiceData.count
        { count := 51, idlist := [], uids := [], summaries := [],
          abstracts := [] }) ∧
    assess_trainee (strCodes ("Joyce J"))
        { count := 51, idlist := [], uids := [], summaries := [],
          abstracts := [] } =
      (some ({ EMPTY_TRAINEE_STATS with
          paper_count := some 51, pmids := some [],
          error := some (strCodes ("Search returned too many results")) }, []),
        []) :=
  ⟨by decide, assess_too_many_results _ _ (by decide)⟩

/-- C7: a trainee with exactly one fetched paper, classified as a
non-review and first-authored by either matching strategy, ends up with
research_papers 1, first_author_research_papers 1, and the paper's journal
title appended exactly once to first_author_journals. -/
theorem assess_single_first_author_research (trainee : PyStr)
    (svc : ServiceData) (p : Pmid) (ps : SummaryData)
    (pa : List AuthorEntry) (sb : Bool)
    (hc : svc.count = 1)
    (hu : svc.uids = [p])
    (hs : svc.summaries.lookup p = some ps)
    (ha : svc.abstracts.lookup p = some pa)
    (hrev : summary_is_review ps = false)
    (hsb : summary_is_first_author trainee ps = some sb)
    (hfa : sb = true ∨ fullrecord_is_first_author trainee pa = true) :
    assess_trainee trainee svc =
      (some ({ EMPTY_TRAINEE_STATS with
          paper_count := some 1, pmids := some svc.idlist,
          research_papers := 1, first_author_research_papers := 1,
          first_author_journals := [journal_title ps] }, [ps]),
        [FetchEvent.fetchSummariesCall, FetchEvent.fetchAbstractsCall]) := by
  have hfirst : (sb || fullrecord_is_first_author trainee pa) = true := by
    rcases hfa with h | h
    · rw [h, Bool.true_or]
    · rw [h, Bool.or_true]
  unfold assess_trainee
  rw [hc]
  rw [if_neg (by omega), if_neg (by simp [TOO_MANY_PAPERS])]
  rw [hu]
  simp [score_papers, hs, ha, hsb, hrev, hfirst, hfa, EMPTY_TRAINEE_STATS]

/-- Witness for C7: a service returning one non-review paper whose summary
first author matches the trainee. -/
theorem assess_single_first_author_research_witness :
    assess_trainee (strCodes ("Joyce J"))
        { count := 1, idlist := [strCodes ("11")],
          uids := [strCodes ("11")],
          summaries := [(strCodes ("11"),
            { authors := [strCodes ("Joyce James")],
              pubtype := [strCodes ("Journal Article")],
              source := strCodes ("Ulysses Journal") })],
          abstracts := [(strCodes ("11"), [])] } =
      (some ({ EMPTY_TRAINEE_STATS with
          paper_count := some 1, pmids := some [strCodes ("11")],
          research_papers := 1, first_author_research_papers := 1,
          first_author_journals :=
            [journal_title
              { authors := [strCodes ("Joyce James")],
                pubtype := [strCodes ("Journal Article")],
                source := strCodes ("Ulysses Journal") }] },
          [{ authors := [strCodes ("Joyce James")],
             pubtype := [strCodes ("Journal Article")],
             source := strCodes ("Ulysses Journal") }]),
        [FetchEvent.fetchSummariesCall, FetchEvent.fetchAbstractsCall]) :=
  assess_single_first_author_research _ _ (strCodes ("11"))
    { authors := [strCodes ("Joyce James")],
      pubtype := [strCodes ("Journal Article")],
      source := strCodes ("Ulysses Journal") }
    [] true rfl rfl (by decide) (by decide) (by decide) (by decide)
    (Or.inl rfl)

/-- C8: whenever the trainee's own name formats, roster-row construction
succeeds whatever the mentor and location cells hold: their parsing
failures surface as `None` fields computed by the total parsers, never as
a propagating exception, so the row stays searchable by trainee name. -/
theorem parse_trainee_mentor_total (row : RosterRow) (with_initial : Bool)
    (trainee : PyStr)
    (h : format_name row.lastNameCol row.firstNameCol with_initial =
      some trainee) :
    parse_trainee_mentor row with_initial =
      some (trainee, parse_mentor row.thesisMentor with_initial,
        parse_location row.location) := by
  unfold parse_trainee_mentor
  rw [h]

/-- Witness for C8: a mentor cell with a trailing comma (its first-name
part strips to empty, so formatting raises inside the `try`) and a missing
location both degrade to `None`, and the row still parses. -/
theorem parse_trainee_mentor_total_witness :
    format_name (strCodes ("Joyce")) (strCodes ("James")) true =
      some (strCodes ("Joyce J")) ∧
    parse_trainee_mentor
        { lastNameCol := strCodes ("Joyce"),
          firstNameCol := strCodes ("James"),
          thesisMentor := CellValue.str (strCodes ("Smith,")),
          location := CellValue.na } true =
      some (strCodes ("Joyce J"), none, none) := by
  constructor
  · decide
  · rw [parse_trainee_mentor_total
      { lastNameCol := strCodes ("Joyce"),
        firstNameCol := strCodes ("James"),
        thesisMentor := CellValue.str (strCodes ("Smith,")),
        location := CellValue.na } true (strCodes ("Joyce J")) (by decide)]
    decide

/-! ### The doctests of `pubmetric.py`, replayed against the embedding -/

example : strip_accents (strCodes ("Montréal")) = strCodes ("Montreal") := by
  decide

example : strip_accents (strCodes ("über")) = strCodes ("uber") := by decide

example : strip_accents (strCodes ("Françoise")) = strCodes ("Francoise") := by
  decide

example : flatten_name (strCodes ("James  Joyce   ")) =
    strCodes ("jamesjoyce") := by decide

example : flatten_name (strCodes ("Saint-Exupéry")) =
    strCodes ("saintexupery") := by decide

example : flatten_name (strCodes ("le Carré")) = strCodes ("lecarre") := by
  decide

example : names_match (strCodes ("Joyce James")) (strCodes ("  Joyce   James ")) =
    true := by decide

example : names_match (strCodes ("T. S. Eliot")) (strCodes ("T S Eliot")) =
    true := by decide

example : names_match (strCodes ("José Saramago")) (strCodes ("Jose Saramago")) =
    true := by decide

example : names_match (strCodes ("John Ronald Reuel Tolkien"))
    (strCodes ("J. R. R. Tolkein")) = false := by decide

example : format_name (strCodes ("Joyce   ")) (strCodes ("James")) true =
    some (strCodes ("Joyce J")) := by decide

example : format_name (strCodes ("Joyce")) (strCodes ("James")) false =
    some (strCodes ("Joyce")) := by decide

end Pubmetric
